import Mathlib

/-!
Shallow embedding of `src/app.py` of the jaesu74/mountain repository:
an aggregation gateway that, given a coordinate, composes the results of
three provider functions (`get_map_info`, `get_forest_data`,
`get_property_data`) into one payload, behind parameter validation and a
per-client rate limiter.

Python floats are modelled as `ℚ`; dictionaries with possibly-absent keys
are modelled as structures of `Option` fields; the exception behaviour of
the one fallible upstream call (`requests.get(...).json()` inside
`get_map_info`) is modelled by an explicit outcome parameter `GeoFetch`.
-/

namespace Mountain

/-- One `{"lat": .., "lon": ..}` entry of the `boundary_coordinates` list
built by `get_forest_data` (src/app.py lines 97-102). -/
structure Coord where
  lat : ℚ
  lon : ℚ
deriving Repr, DecidableEq

/-- The `geometry` sub-object of one geocoding result; only its
`location_type` key is consumed (src/app.py line 70).  An absent key is
`none`. -/
structure Geometry where
  location_type : Option String
deriving Repr, DecidableEq

/-- One element of the geocoding response's `results` array, with the two
keys the code consumes; an absent key is `none`. -/
structure GeoResult where
  formatted_address : Option String
  geometry : Option Geometry
deriving Repr, DecidableEq

/-- The decoded geocoding JSON body, as consumed via
`geocode_data.get("status")` and `geocode_data.get("results")`
(src/app.py lines 66-70); an absent key is `none`. -/
structure GeocodeData where
  status : Option String
  results : Option (List GeoResult)
deriving Repr, DecidableEq

/-- Outcome of the `try` block of `get_map_info` (src/app.py lines 58-64):
`fail` is any exception raised by `requests.get` or `.json()` — transport
failure, timeout, or a malformed (non-JSON) body — and `ok d` is a decoded
response body `d`. -/
inductive GeoFetch where
  | fail : GeoFetch
  | ok : GeocodeData → GeoFetch
deriving Repr, DecidableEq

/-- The dictionary returned by `get_map_info` (src/app.py lines 80-85). -/
structure MapInfo where
  address : String
  formatted_address : String
  location_type : String
  map_image_url : String
deriving Repr, DecidableEq

/-- The dictionary returned by `get_forest_data` (src/app.py lines 94-103
on success, line 108 on failure). -/
structure ForestData where
  is_mountain_area : Bool
  region_name : String
  boundary_coordinates : List Coord
deriving Repr, DecidableEq

/-- The dictionary returned by `get_property_data` (src/app.py lines
117-121 on success, line 126 on failure); `management` is `None` in both,
modelled as an `Option String` field. -/
structure PropertyData where
  owner : String
  registration_number : String
  management : Option String
deriving Repr, DecidableEq

/-- The aggregate payload assembled by the handler (src/app.py lines
148-152). -/
structure RegionInfoResult where
  map_info : MapInfo
  forest_data : ForestData
  property_data : PropertyData
deriving Repr, DecidableEq

/-- The value bound to `geocode_data` after the `try`/`except` of
`get_map_info`: the decoded body on success, and the literal
`{"status": "ERROR"}` (no `results` key) on any exception
(src/app.py line 64). -/
def geoData : GeoFetch → GeocodeData
  | .fail => { status := some "ERROR", results := none }
  | .ok d => d

/-- The `(address, location_type)` pair computed by the branch at
src/app.py lines 66-73: the success arm requires
`geocode_data.get("status") == "OK"` and a truthy (present, non-empty)
`results` list, and reads `formatted_address` (default "주소 정보 없음")
and `geometry.location_type` (default `{}` for `geometry`, "N/A" for
`location_type`) off the first result; every other shape takes the
fallback arm (lines 71-73). -/
def addressAndLocationType (geocode_data : GeocodeData) : String × String :=
  match geocode_data.status, geocode_data.results with
  | some "OK", some (result :: _) =>
      (result.formatted_address.getD "주소 정보 없음",
       ((result.geometry.getD { location_type := none }).location_type).getD "N/A")
  | _, _ => ("주소 정보를 찾을 수 없음", "")

/-- `get_map_info(latitude, longitude)` (src/app.py lines 50-85), with the
process-wide `GOOGLE_API_KEY` and the outcome of the upstream call made
explicit parameters.  The static-map URL is the f-string of lines 75-78. -/
def get_map_info (latitude longitude : ℚ) (key : String) (fetch : GeoFetch) :
    MapInfo :=
  let geocode_data := geoData fetch
  let al := addressAndLocationType geocode_data
  { address := al.1
    formatted_address := al.1
    location_type := al.2
    map_image_url :=
      "https://maps.googleapis.com/maps/api/staticmap?center=" ++
        toString latitude ++ "," ++ toString longitude ++
        "&zoom=15&size=600x300&key=" ++ key }

/-- `get_forest_data(latitude, longitude)` (src/app.py lines 88-108).  The
`try` body (lines 93-105) is a pure record construction and a log call, so
it cannot raise; the `except` arm (line 108) collapses away in the
embedding. -/
def get_forest_data (latitude longitude : ℚ) : ForestData :=
  { is_mountain_area := true
    region_name := "강원도 산림지역"
    boundary_coordinates :=
      [ { lat := latitude + 0.001, lon := longitude + 0.001 },
        { lat := latitude + 0.002, lon := longitude + 0.001 },
        { lat := latitude + 0.002, lon := longitude + 0.002 },
        { lat := latitude + 0.001, lon := longitude + 0.002 } ] }

/-- The all-empty fallback dictionary of `get_forest_data`'s `except` arm
(src/app.py line 108). -/
def forestFallback : ForestData :=
  { is_mountain_area := false, region_name := "", boundary_coordinates := [] }

/-- `get_property_data(region_name)` (src/app.py lines 111-126).  The
`try` body is a pure record construction and a log call, so the `except`
arm (line 126) collapses away; the `region_name` argument is accepted and
unused, exactly as in the source. -/
def get_property_data (_region_name : String) : PropertyData :=
  { owner := "홍길동"
    registration_number := "1234-5678-9012"
    management := none }

/-- The all-empty fallback dictionary of `get_property_data`'s `except`
arm (src/app.py line 126). -/
def propertyFallback : PropertyData :=
  { owner := "", registration_number := "", management := none }

/-- The aggregation performed on the handler's success path (src/app.py
lines 143-152): the three provider calls, with `get_forest_data`'s
`region_name` feeding `get_property_data`
(`forest_data.get("region_name", "")` on a dict that always carries the
key). -/
def aggregate (latitude longitude : ℚ) (key : String) (fetch : GeoFetch) :
    RegionInfoResult :=
  let map_info := get_map_info latitude longitude key fetch
  let forest_data := get_forest_data latitude longitude
  let property_data := get_property_data forest_data.region_name
  { map_info := map_info, forest_data := forest_data,
    property_data := property_data }

/-- The handler's possible responses: `success r` is the 200 body
`jsonify(result)`; `clientError msg` is the 400 body
`jsonify({"error": msg})` (src/app.py line 140); `serverError msg` is the
500 arm of the catch-all (lines 154-156), which no execution of the
embedded handler reaches since every embedded call is total. -/
inductive HandlerResponse where
  | success : RegionInfoResult → HandlerResponse
  | clientError : String → HandlerResponse
  | serverError : String → HandlerResponse
deriving Repr, DecidableEq

/-- The body of `get_region_info` (src/app.py lines 131-156) after the
rate limiter has admitted the request.  `request.args.get(name,
type=float)` returns `None` both when the parameter is absent and when
the framework's float conversion fails, so it is modelled as
`raw.bind parse` for an abstract parse function supplied by the (external)
framework; the source checks both results for `None` before invoking any
provider (lines 139-140). -/
def get_region_info (parse : String → Option ℚ)
    (latRaw lonRaw : Option String) (key : String) (fetch : GeoFetch) :
    HandlerResponse :=
  match latRaw.bind parse, lonRaw.bind parse with
  | some latitude, some longitude =>
      .success (aggregate latitude longitude key fetch)
  | _, _ => .clientError "latitude와 longitude 파라미터가 필요합니다."

/-- Modelled from the spec: the rate-limit windows configured in
src/app.py — `"10 per minute"` on the route (line 130) under the default
limits `"50 per hour"` and `"200 per day"` (line 36), keyed per client
address — whose enforcement lives in the external flask-limiter
collaborator, not in this repository.  Each entry is (window length in
time-units, cap). -/
def rateWindows : List (Nat × Nat) := [(60, 10), (3600, 50), (86400, 200)]

/-- Modelled from the spec: a request from one client at time `t` is
admitted iff, for every configured window, the accepted requests of that
client within the window (timestamps `s` with `t - s <` window) number
strictly fewer than the cap (spec §4.5: sliding window per client
identity). -/
def rateAllowed (accepted : List Nat) (t : Nat) : Bool :=
  rateWindows.all fun wc => (accepted.filter fun s => t < s + wc.1).length < wc.2

/-- A gateway outcome for one request: `rateLimited` is the 429 rejection
issued by the limiter before the handler body runs; `handled r` is the
handler's own response. -/
inductive GatewayResponse where
  | rateLimited : GatewayResponse
  | handled : HandlerResponse → GatewayResponse
deriving Repr, DecidableEq

/-- True exactly on the limiter's 429 rejection. -/
def GatewayResponse.isRateLimited : GatewayResponse → Bool
  | .rateLimited => true
  | .handled _ => false

/-- True exactly on a 200 response carrying an aggregated result. -/
def GatewayResponse.isSuccess : GatewayResponse → Bool
  | .handled (.success _) => true
  | _ => false

/-- Modelled from the spec: one request through the gateway for a single
client identity.  If the limiter admits the request at time `t` it is
recorded and the handler body runs; otherwise the recorded history is
unchanged and the request is rejected before aggregation (spec §4.5). -/
def gatewayStep (parse : String → Option ℚ) (key : String) (fetch : GeoFetch)
    (accepted : List Nat) (t : Nat) (latRaw lonRaw : Option String) :
    List Nat × GatewayResponse :=
  if rateAllowed accepted t then
    (t :: accepted, .handled (get_region_info parse latRaw lonRaw key fetch))
  else
    (accepted, .rateLimited)

/-- Modelled from the spec: a sequence of requests `(t, latRaw, lonRaw)`
from one client identity, processed in order through the rate limiter and
handler, returning the per-request gateway responses. -/
def gatewayRun (parse : String → Option ℚ) (key : String) (fetch : GeoFetch)
    (accepted : List Nat) :
    List (Nat × Option String × Option String) → List GatewayResponse
  | [] => []
  | r :: rs =>
      let step := gatewayStep parse key fetch accepted r.1 r.2.1 r.2.2
      step.2 :: gatewayRun parse key fetch step.1 rs

/-- A concrete parse function standing in for the framework's float
conversion in closed instances: defined only on the strings used there. -/
def parseDemo : String → Option ℚ :=
  fun s => if s = "37.5" then some (75 / 2) else none

/-- Helper: every geocoding body whose status is not `"OK"`, or whose
`results` key is absent or empty, takes the fallback arm of lines 71-73. -/
theorem addressAndLocationType_fallback (g : GeocodeData)
    (h : g.status ≠ some "OK" ∨ g.results = none ∨ g.results = some []) :
    addressAndLocationType g = ("주소 정보를 찾을 수 없음", "") := by
  obtain ⟨st, res⟩ := g
  unfold addressAndLocationType
  split
  · rename_i heq hres
    exfalso
    rcases h with h | h | h <;> simp_all
  · rfl

/-- C1: for every parsed float pair, the handler's aggregation is total
and is exactly the composition of the three provider calls, with
`get_forest_data`'s `region_name` feeding `get_property_data`, and all
three sub-objects present in the result record. -/
theorem c1_handler_is_provider_composition (parse : String → Option ℚ)
    (latRaw lonRaw : Option String) (latitude longitude : ℚ)
    (key : String) (fetch : GeoFetch)
    (hlat : latRaw.bind parse = some latitude)
    (hlon : lonRaw.bind parse = some longitude) :
    get_region_info parse latRaw lonRaw key fetch =
      .success
        { map_info := get_map_info latitude longitude key fetch
          forest_data := get_forest_data latitude longitude
          property_data :=
            get_property_data (get_forest_data latitude longitude).region_name } := by
  unfold get_region_info
  rw [hlat, hlon]
  rfl

/-- Witness for C1 at latitude = longitude = 37.5 (raw string "37.5"). -/
theorem c1_handler_is_provider_composition_witness :
    (some "37.5" : Option String).bind parseDemo = some (75 / 2 : ℚ)
  ∧ get_region_info parseDemo (some "37.5") (some "37.5") "KEY" .fail =
      .success
        { map_info := get_map_info (75 / 2) (75 / 2) "KEY" .fail
          forest_data := get_forest_data (75 / 2) (75 / 2)
          property_data :=
            get_property_data (get_forest_data (75 / 2) (75 / 2)).region_name } :=
  ⟨rfl,
   c1_handler_is_provider_composition parseDemo (some "37.5") (some "37.5")
     (75 / 2) (75 / 2) "KEY" .fail rfl rfl⟩

/-- C2: for every input coordinate, `get_forest_data` reports a mountain
area with the fixed region label, and its boundary is exactly the four
input-offset points, in source order. -/
theorem c2_forest_data_shape (latitude longitude : ℚ) :
    (get_forest_data latitude longitude).is_mountain_area = true
  ∧ (get_forest_data latitude longitude).region_name = "강원도 산림지역"
  ∧ (get_forest_data latitude longitude).boundary_coordinates =
      [ { lat := latitude + 0.001, lon := longitude + 0.001 },
        { lat := latitude + 0.002, lon := longitude + 0.001 },
        { lat := latitude + 0.002, lon := longitude + 0.002 },
        { lat := latitude + 0.001, lon := longitude + 0.002 } ]
  ∧ (get_forest_data latitude longitude).boundary_coordinates.length = 4 :=
  ⟨rfl, rfl, rfl, rfl⟩

/-- C3: on a failed fetch, and on any decoded body whose status is not
`"OK"` or whose results are absent or empty, `get_map_info` returns the
sentinel address (duplicated in `formatted_address`) and an empty
`location_type`; the embedded function is total, so nothing escapes to the
caller. -/
theorem c3_geocode_failure_fallback (latitude longitude : ℚ) (key : String)
    (fetch : GeoFetch)
    (h : fetch = .fail ∨ (geoData fetch).status ≠ some "OK"
       ∨ (geoData fetch).results = none ∨ (geoData fetch).results = some []) :
    (get_map_info latitude longitude key fetch).address = "주소 정보를 찾을 수 없음"
  ∧ (get_map_info latitude longitude key fetch).formatted_address =
      "주소 정보를 찾을 수 없음"
  ∧ (get_map_info latitude longitude key fetch).location_type = "" := by
  have hfb : addressAndLocationType (geoData fetch) =
      ("주소 정보를 찾을 수 없음", "") := by
    rcases h with h | h | h | h
    · subst h; rfl
    · exact addressAndLocationType_fallback _ (Or.inl h)
    · exact addressAndLocationType_fallback _ (Or.inr (Or.inl h))
    · exact addressAndLocationType_fallback _ (Or.inr (Or.inr h))
  refine ⟨?_, ?_, ?_⟩ <;> simp [get_map_info, hfb]

/-- Witness for C3 on a transport failure at coordinate (1, 2). -/
theorem c3_geocode_failure_fallback_witness :
    ((.fail : GeoFetch) = .fail ∨ (geoData .fail).status ≠ some "OK"
       ∨ (geoData .fail).results = none ∨ (geoData .fail).results = some [])
  ∧ (get_map_info 1 2 "KEY" .fail).address = "주소 정보를 찾을 수 없음"
  ∧ (get_map_info 1 2 "KEY" .fail).formatted_address = "주소 정보를 찾을 수 없음"
  ∧ (get_map_info 1 2 "KEY" .fail).location_type = "" :=
  ⟨Or.inl rfl, c3_geocode_failure_fallback 1 2 "KEY" .fail (Or.inl rfl)⟩

/-- C4: `get_property_data` does not depend on its `region_name` argument,
and always equals the fixed mock record. -/
theorem c4_property_data_constant (r1 r2 : String) :
    get_property_data r1 = get_property_data r2
  ∧ get_property_data r1 =
      { owner := "홍길동", registration_number := "1234-5678-9012",
        management := none } :=
  ⟨rfl, rfl⟩

/-- C5: whenever a coordinate parameter is missing, or present but not
parseable as a float, the handler returns the fixed 400 error body, for
every fetch outcome and key — so no provider call influences the
response; a non-numeric parameter is rejected exactly like a missing one
(both hypotheses land in the same conclusion). -/
theorem c5_param_validation (parse : String → Option ℚ)
    (latRaw lonRaw : Option String) (key : String) (fetch : GeoFetch)
    (h : latRaw = none ∨ (∃ s, latRaw = some s ∧ parse s = none)
       ∨ lonRaw = none ∨ (∃ s, lonRaw = some s ∧ parse s = none)) :
    get_region_info parse latRaw lonRaw key fetch =
      .clientError "latitude와 longitude 파라미터가 필요합니다." := by
  have hnone : latRaw.bind parse = none ∨ lonRaw.bind parse = none := by
    rcases h with h | ⟨s, hs, hp⟩ | h | ⟨s, hs, hp⟩
    · exact Or.inl (by simp [h])
    · exact Or.inl (by simp [hs, hp])
    · exact Or.inr (by simp [h])
    · exact Or.inr (by simp [hs, hp])
  rcases hnone with h0 | h0
  · cases hl : lonRaw.bind parse <;> simp [get_region_info, h0, hl]
  · cases hl : latRaw.bind parse <;> simp [get_region_info, h0, hl]

/-- Witness for C5: a non-numeric latitude "abc" with a valid longitude. -/
theorem c5_param_validation_witness :
    ((some "abc" : Option String) = none
       ∨ (∃ s, (some "abc" : Option String) = some s ∧ parseDemo s = none)
       ∨ (some "37.5" : Option String) = none
       ∨ (∃ s, (some "37.5" : Option String) = some s ∧ parseDemo s = none))
  ∧ get_region_info parseDemo (some "abc") (some "37.5") "KEY" .fail =
      .clientError "latitude와 longitude 파라미터가 필요합니다." :=
  ⟨Or.inr (Or.inl ⟨"abc", rfl, rfl⟩),
   c5_param_validation parseDemo (some "abc") (some "37.5") "KEY" .fail
     (Or.inr (Or.inl ⟨"abc", rfl, rfl⟩))⟩

/-- C6: on a decoded body with status `"OK"` and a non-empty results list,
the address (and `formatted_address`) is the first result's
`formatted_address` with fallback "주소 정보 없음", and `location_type` is
the first result's `geometry.location_type` with fallback "N/A". -/
theorem c6_geocode_success_extraction (latitude longitude : ℚ) (key : String)
    (d : GeocodeData) (result : GeoResult) (rest : List GeoResult)
    (hst : d.status = some "OK") (hres : d.results = some (result :: rest)) :
    (get_map_info latitude longitude key (.ok d)).address =
      result.formatted_address.getD "주소 정보 없음"
  ∧ (get_map_info latitude longitude key (.ok d)).formatted_address =
      result.formatted_address.getD "주소 정보 없음"
  ∧ (get_map_info latitude longitude key (.ok d)).location_type =
      ((result.geometry.getD { location_type := none }).location_type).getD
        "N/A" := by
  obtain ⟨st, res⟩ := d
  cases hst
  cases hres
  exact ⟨rfl, rfl, rfl⟩

/-- Witness for C6 on a one-result body with both optional fields
present. -/
theorem c6_geocode_success_extraction_witness :
    (GeocodeData.mk (some "OK")
        (some [⟨some "서울특별시 중구", some ⟨some "ROOFTOP"⟩⟩])).status = some "OK"
  ∧ (GeocodeData.mk (some "OK")
        (some [⟨some "서울특별시 중구", some ⟨some "ROOFTOP"⟩⟩])).results =
      some [⟨some "서울특별시 중구", some ⟨some "ROOFTOP"⟩⟩]
  ∧ (get_map_info 1 2 "KEY"
        (.ok (GeocodeData.mk (some "OK")
          (some [⟨some "서울특별시 중구", some ⟨some "ROOFTOP"⟩⟩])))).address =
      (some "서울특별시 중구").getD "주소 정보 없음"
  ∧ (get_map_info 1 2 "KEY"
        (.ok (GeocodeData.mk (some "OK")
          (some [⟨some "서울특별시 중구", some ⟨some "ROOFTOP"⟩⟩])))).formatted_address =
      (some "서울특별시 중구").getD "주소 정보 없음"
  ∧ (get_map_info 1 2 "KEY"
        (.ok (GeocodeData.mk (some "OK")
          (some [⟨some "서울특별시 중구", some ⟨some "ROOFTOP"⟩⟩])))).location_type =
      (((some (Geometry.mk (some "ROOFTOP"))).getD
          { location_type := none }).location_type).getD "N/A" :=
  ⟨rfl, rfl,
   c6_geocode_success_extraction 1 2 "KEY" _
     ⟨some "서울특별시 중구", some ⟨some "ROOFTOP"⟩⟩ [] rfl rfl⟩

/-- C7: for every fetch outcome the `map_image_url` is exactly the static
map URL built from the input coordinate and the process-wide key — so it
is deterministic in those inputs — and it is never empty. -/
theorem c7_static_map_url (latitude longitude : ℚ) (key : String)
    (fetch fetch' : GeoFetch) :
    (get_map_info latitude longitude key fetch).map_image_url =
      "https://maps.googleapis.com/maps/api/staticmap?center=" ++
        toString latitude ++ "," ++ toString longitude ++
        "&zoom=15&size=600x300&key=" ++ key
  ∧ (get_map_info latitude longitude key fetch).map_image_url =
      (get_map_info latitude longitude key fetch').map_image_url
  ∧ (get_map_info latitude longitude key fetch).map_image_url ≠ "" := by
  refine ⟨rfl, rfl, ?_⟩
  intro h
  have h' : "https://maps.googleapis.com/maps/api/staticmap?center=" ++
      toString latitude ++ "," ++ toString longitude ++
      "&zoom=15&size=600x300&key=" ++ key = "" := h
  have hlen := congrArg String.length h'
  simp only [String.length_append] at hlen
  have h1 : ("https://maps.googleapis.com/maps/api/staticmap?center=" :
      String).length = 54 := rfl
  have h2 : ("" : String).length = 0 := rfl
  omega

/-- Helper: with fewer than 10 accepted requests on record, every window
(cap 10, 50, 200) is under its cap, so the limiter admits the request. -/
theorem rateAllowed_of_length_lt (accepted : List Nat) (t : Nat)
    (h : accepted.length < 10) : rateAllowed accepted t = true := by
  have h60 := List.length_filter_le (fun s => decide (t < s + 60)) accepted
  have h3600 := List.length_filter_le (fun s => decide (t < s + 3600)) accepted
  have h86400 := List.length_filter_le (fun s => decide (t < s + 86400)) accepted
  simp only [rateAllowed, rateWindows, List.all_cons, List.all_nil,
    Bool.and_true, Bool.and_eq_true, decide_eq_true_eq]
  exact ⟨by omega, by omega, by omega⟩

/-- Helper: with at least 10 accepted requests on record, all of them
within the 60-unit window of `t`, the minute cap is full and the limiter
rejects the request. -/
theorem rateAllowed_false_of_minute_window_full (accepted : List Nat)
    (t : Nat) (hlen : 10 ≤ accepted.length)
    (hw : ∀ s ∈ accepted, t < s + 60) : rateAllowed accepted t = false := by
  have hfix : accepted.filter (fun s => decide (t < s + 60)) = accepted :=
    List.filter_eq_self.mpr (by simpa using hw)
  have hfull : decide ((accepted.filter
      (fun s => decide (t < s + 60))).length < 10) = false := by
    rw [hfix]
    simp only [decide_eq_false_iff_not]
    omega
  simp only [rateAllowed, rateWindows, List.all_cons, List.all_nil,
    Bool.and_true, hfull, Bool.false_and]

/-- Helper: on structurally valid parameters (both raw strings parse), the
handler's response is a 200 success. -/
theorem handled_isSuccess_of_valid (parse : String → Option ℚ)
    (latRaw lonRaw : Option String) (key : String) (fetch : GeoFetch)
    (hlat : (latRaw.bind parse).isSome = true)
    (hlon : (lonRaw.bind parse).isSome = true) :
    (GatewayResponse.handled
      (get_region_info parse latRaw lonRaw key fetch)).isSuccess = true := by
  obtain ⟨a, ha⟩ := Option.isSome_iff_exists.mp hlat
  obtain ⟨b, hb⟩ := Option.isSome_iff_exists.mp hlon
  unfold get_region_info
  rw [ha, hb]
  rfl

/-- C8: with the spec-modelled limiter windows (10 per 60 time-units,
layered under 50 per 3600 and 200 per 86400, per client identity), any
eleven structurally valid requests from one fresh client whose times all
lie within 60 time-units of each other yield ten processed (200,
aggregated) responses followed by one rate-limit rejection issued before
aggregation — for every parse function, key, and fetch outcome. -/
theorem c8_rate_limit_eleventh_rejected (parse : String → Option ℚ)
    (key : String) (fetch : GeoFetch)
    (reqs : List (Nat × Option String × Option String))
    (hlen : reqs.length = 11)
    (hvalid : ∀ r ∈ reqs,
      (r.2.1.bind parse).isSome = true ∧ (r.2.2.bind parse).isSome = true)
    (hwin : ∀ r ∈ reqs, ∀ r' ∈ reqs, r.1 < r'.1 + 60) :
    ((gatewayRun parse key fetch [] reqs).map GatewayResponse.isSuccess =
      [true, true, true, true, true, true, true, true, true, true, false])
  ∧ ((gatewayRun parse key fetch [] reqs).map GatewayResponse.isRateLimited =
      [false, false, false, false, false, false, false, false, false, false,
        true]) := by
  rcases reqs with _ | ⟨r0, reqs⟩; · simp at hlen
  rcases reqs with _ | ⟨r1, reqs⟩; · simp at hlen
  rcases reqs with _ | ⟨r2, reqs⟩; · simp at hlen
  rcases reqs with _ | ⟨r3, reqs⟩; · simp at hlen
  rcases reqs with _ | ⟨r4, reqs⟩; · simp at hlen
  rcases reqs with _ | ⟨r5, reqs⟩; · simp at hlen
  rcases reqs with _ | ⟨r6, reqs⟩; · simp at hlen
  rcases reqs with _ | ⟨r7, reqs⟩; · simp at hlen
  rcases reqs with _ | ⟨r8, reqs⟩; · simp at hlen
  rcases reqs with _ | ⟨r9, reqs⟩; · simp at hlen
  rcases reqs with _ | ⟨r10, reqs⟩; · simp at hlen
  rcases reqs with _ | ⟨r11, reqs⟩
  · have hA0 : rateAllowed [] r0.1 = true :=
      rateAllowed_of_length_lt _ _ (by simp)
    have hA1 : rateAllowed [r0.1] r1.1 = true :=
      rateAllowed_of_length_lt _ _ (by simp)
    have hA2 : rateAllowed [r1.1, r0.1] r2.1 = true :=
      rateAllowed_of_length_lt _ _ (by simp)
    have hA3 : rateAllowed [r2.1, r1.1, r0.1] r3.1 = true :=
      rateAllowed_of_length_lt _ _ (by simp)
    have hA4 : rateAllowed [r3.1, r2.1, r1.1, r0.1] r4.1 = true :=
      rateAllowed_of_length_lt _ _ (by simp)
    have hA5 : rateAllowed [r4.1, r3.1, r2.1, r1.1, r0.1] r5.1 = true :=
      rateAllowed_of_length_lt _ _ (by simp)
    have hA6 : rateAllowed [r5.1, r4.1, r3.1, r2.1, r1.1, r0.1] r6.1 = true :=
      rateAllowed_of_length_lt _ _ (by simp)
    have hA7 : rateAllowed [r6.1, r5.1, r4.1, r3.1, r2.1, r1.1, r0.1] r7.1 =
        true := rateAllowed_of_length_lt _ _ (by simp)
    have hA8 : rateAllowed
        [r7.1, r6.1, r5.1, r4.1, r3.1, r2.1, r1.1, r0.1] r8.1 = true :=
      rateAllowed_of_length_lt _ _ (by simp)
    have hA9 : rateAllowed
        [r8.1, r7.1, r6.1, r5.1, r4.1, r3.1, r2.1, r1.1, r0.1] r9.1 = true :=
      rateAllowed_of_length_lt _ _ (by simp)
    have w0 : r10.1 < r0.1 + 60 := hwin r10 (by simp) r0 (by simp)
    have w1 : r10.1 < r1.1 + 60 := hwin r10 (by simp) r1 (by simp)
    have w2 : r10.1 < r2.1 + 60 := hwin r10 (by simp) r2 (by simp)
    have w3 : r10.1 < r3.1 + 60 := hwin r10 (by simp) r3 (by simp)
    have w4 : r10.1 < r4.1 + 60 := hwin r10 (by simp) r4 (by simp)
    have w5 : r10.1 < r5.1 + 60 := hwin r10 (by simp) r5 (by simp)
    have w6 : r10.1 < r6.1 + 60 := hwin r10 (by simp) r6 (by simp)
    have w7 : r10.1 < r7.1 + 60 := hwin r10 (by simp) r7 (by simp)
    have w8 : r10.1 < r8.1 + 60 := hwin r10 (by simp) r8 (by simp)
    have w9 : r10.1 < r9.1 + 60 := hwin r10 (by simp) r9 (by simp)
    have hB : rateAllowed
        [r9.1, r8.1, r7.1, r6.1, r5.1, r4.1, r3.1, r2.1, r1.1, r0.1] r10.1 =
        false := by
      refine rateAllowed_false_of_minute_window_full _ _ (by simp) ?_
      intro s hs
      simp only [List.mem_cons, List.not_mem_nil, or_false] at hs
      rcases hs with rfl | rfl | rfl | rfl | rfl | rfl | rfl | rfl | rfl | rfl
      exacts [w9, w8, w7, w6, w5, w4, w3, w2, w1, w0]
    have hS0 := handled_isSuccess_of_valid parse r0.2.1 r0.2.2 key fetch
      (hvalid r0 (by simp)).1 (hvalid r0 (by simp)).2
    have hS1 := handled_isSuccess_of_valid parse r1.2.1 r1.2.2 key fetch
      (hvalid r1 (by simp)).1 (hvalid r1 (by simp)).2
    have hS2 := handled_isSuccess_of_valid parse r2.2.1 r2.2.2 key fetch
      (hvalid r2 (by simp)).1 (hvalid r2 (by simp)).2
    have hS3 := handled_isSuccess_of_valid parse r3.2.1 r3.2.2 key fetch
      (hvalid r3 (by simp)).1 (hvalid r3 (by simp)).2
    have hS4 := handled_isSuccess_of_valid parse r4.2.1 r4.2.2 key fetch
      (hvalid r4 (by simp)).1 (hvalid r4 (by simp)).2
    have hS5 := handled_isSuccess_of_valid parse r5.2.1 r5.2.2 key fetch
      (hvalid r5 (by simp)).1 (hvalid r5 (by simp)).2
    have hS6 := handled_isSuccess_of_valid parse r6.2.1 r6.2.2 key fetch
      (hvalid r6 (by simp)).1 (hvalid r6 (by simp)).2
    have hS7 := handled_isSuccess_of_valid parse r7.2.1 r7.2.2 key fetch
      (hvalid r7 (by simp)).1 (hvalid r7 (by simp)).2
    have hS8 := handled_isSuccess_of_valid parse r8.2.1 r8.2.2 key fetch
      (hvalid r8 (by simp)).1 (hvalid r8 (by simp)).2
    have hS9 := handled_isSuccess_of_valid parse r9.2.1 r9.2.2 key fetch
      (hvalid r9 (by simp)).1 (hvalid r9 (by simp)).2
    have hnotRL : ∀ h : HandlerResponse,
        (GatewayResponse.handled h).isRateLimited = false := fun _ => rfl
    have hRLtrue : (GatewayResponse.rateLimited).isRateLimited = true := rfl
    have hRSfalse : (GatewayResponse.rateLimited).isSuccess = false := rfl
    refine ⟨?_, ?_⟩ <;>
      simp [gatewayRun, gatewayStep, hA0, hA1, hA2, hA3, hA4, hA5, hA6, hA7,
        hA8, hA9, hB, hS0, hS1, hS2, hS3, hS4, hS5, hS6, hS7, hS8, hS9,
        hnotRL, hRLtrue, hRSfalse]
  · simp at hlen

/-- Witness for C8: the concrete trace of eleven valid requests at times
0..10 from one fresh client. -/
theorem c8_rate_limit_eleventh_rejected_witness :
    (((List.range 11).map fun t =>
        ((t : Nat), (some "37.5" : Option String),
          (some "37.5" : Option String))).length = 11)
  ∧ (∀ r ∈ (List.range 11).map fun t =>
        ((t : Nat), (some "37.5" : Option String),
          (some "37.5" : Option String)),
      (r.2.1.bind parseDemo).isSome = true ∧
        (r.2.2.bind parseDemo).isSome = true)
  ∧ (∀ r ∈ (List.range 11).map fun t =>
        ((t : Nat), (some "37.5" : Option String),
          (some "37.5" : Option String)),
      ∀ r' ∈ (List.range 11).map fun t =>
        ((t : Nat), (some "37.5" : Option String),
          (some "37.5" : Option String)), r.1 < r'.1 + 60)
  ∧ ((gatewayRun parseDemo "KEY" .fail []
        ((List.range 11).map fun t =>
          ((t : Nat), (some "37.5" : Option String),
            (some "37.5" : Option String)))).map GatewayResponse.isSuccess =
      [true, true, true, true, true, true, true, true, true, true, false])
  ∧ ((gatewayRun parseDemo "KEY" .fail []
        ((List.range 11).map fun t =>
          ((t : Nat), (some "37.5" : Option String),
            (some "37.5" : Option String)))).map
        GatewayResponse.isRateLimited =
      [false, false, false, false, false, false, false, false, false, false,
        true]) := by
  have h := c8_rate_limit_eleventh_rejected parseDemo "KEY" .fail
    ((List.range 11).map fun t =>
      ((t : Nat), (some "37.5" : Option String),
        (some "37.5" : Option String)))
    (by decide) (by decide) (by decide)
  exact ⟨by decide, by decide, by decide, h.1, h.2⟩

/-- C9: on every path, the returned `formatted_address` equals the
returned `address` — both record fields are assigned the same local
variable in the source. -/
theorem c9_formatted_address_eq_address (latitude longitude : ℚ)
    (key : String) (fetch : GeoFetch) :
    (get_map_info latitude longitude key fetch).formatted_address =
      (get_map_info latitude longitude key fetch).address :=
  rfl

/-- C10: the `except` fallbacks of `get_forest_data` and
`get_property_data` are never returned: the embedded functions (whose try
bodies are pure record constructions) always differ from the all-empty
fallback records. -/
theorem c10_fallbacks_unreachable (latitude longitude : ℚ)
    (region_name : String) :
    get_forest_data latitude longitude ≠ forestFallback
  ∧ get_property_data region_name ≠ propertyFallback := by
  constructor
  · intro h
    have hc := congrArg ForestData.is_mountain_area h
    simp [get_forest_data, forestFallback] at hc
  · intro h
    have hc := congrArg PropertyData.owner h
    simp [get_property_data, propertyFallback] at hc

end Mountain
